import Mathlib

/-!
Verification of the natural-language specification of `rapido-labs/ota-docs`
against the repository's files.

The repository is a Docusaurus documentation site: fifteen Markdown pages, a
site configuration module (`docusaurus.config.js`), a sidebar definition
(`sidebars.js`, staged as `src/unnamed/part_007`) and one React presentation
component (`HomepageFeatures`, staged as `src/unnamed/part_008`).  The claims
are about the content of these files, so the shallow embedding below models:

* the relevant documentation lines verbatim, as `DocLine` values (path, line
  number, raw text, with `\x7b`/`\x7d` escapes standing for the brace
  characters);
* the evaluation of `docusaurus.config.js` as a function of the build
  environment's current year (`renderConfig`), since the footer copyright
  interpolates `new Date().getFullYear()`;
* the sidebar and homepage feature list as the constant data they are;
* each end-to-end integration-flow description as the ordered list of the
  protocol steps it presents;
* the repository's file inventory with each file's format.

Properties about the text are decidable substring checks, so each theorem is
settled by evaluation on the embedded data.
-/

namespace OtaDocs

/-- Does the character list `needle` occur as a prefix of `hay`? -/
def charsStart : List Char → List Char → Bool
  | [], _ => true
  | _ :: _, [] => false
  | c :: cs, d :: ds => c == d && charsStart cs ds

/-- Does the character list `needle` occur contiguously inside `hay`? -/
def charsInfix : List Char → List Char → Bool
  | needle, [] => needle.isEmpty
  | needle, d :: ds => charsStart needle (d :: ds) || charsInfix needle ds

/-- Does the string `hay` contain `needle` as a contiguous substring? -/
def containsStr (hay needle : String) : Bool :=
  charsInfix needle.toList hay.toList

/-- One line of a documentation file, kept verbatim: the line number in the
staged file and the raw text of the line. -/
structure DocLine where
  lineno : Nat
  text : String
deriving DecidableEq

/-- Does some line of the excerpt contain the given substring? -/
def anyLineHas (ls : List DocLine) (needle : String) : Bool :=
  ls.any fun l => containsStr l.text needle

/-- Does every line of the excerpt contain the given substring? -/
def allLinesHave (ls : List DocLine) (needle : String) : Bool :=
  ls.all fun l => containsStr l.text needle

/-! ## `docs/api/overview.md` — "Available APIs" section (lines 35–47) -/

/-- Lines 35–47 of `docs/api/overview.md`: the "Available APIs" section
declaring the two HTTP endpoints of the documented API surface. -/
def apiOverview_availableAPIs : List DocLine := [
  ⟨35, "### 1. Token Validation API"⟩,
  ⟨36, "**Purpose**: Validate user authentication tokens received from your PWA"⟩,
  ⟨37, ""⟩,
  ⟨38, "**Endpoint**: `POST /fetch-user-details`"⟩,
  ⟨39, ""⟩,
  ⟨40, "**Use Case**: After your PWA receives a token via `onTokenReceived`, your backend calls this endpoint to validate the token and retrieve user information."⟩,
  ⟨41, ""⟩,
  ⟨42, "### 2. Events API"⟩,
  ⟨43, "**Purpose**: Send business events (orders, bookings, payments) from your backend to Rapido's analytics system"⟩,
  ⟨44, ""⟩,
  ⟨45, "**Endpoint**: `POST /event`"⟩,
  ⟨46, ""⟩,
  ⟨47, "**Use Case**: Track order confirmations, cancellations, and other business events for analytics and business intelligence."⟩]

/-! ## `docs/integration/events-tracking.md` — "API Endpoint" section (lines 164–179) -/

/-- Lines 164–179 of `docs/integration/events-tracking.md`: the endpoint and
header conventions of the server-to-server events API. -/
def eventsTracking_apiEndpoint : List DocLine := [
  ⟨164, "### API Endpoint"⟩,
  ⟨165, ""⟩,
  ⟨166, "**Method**: `POST`  "⟩,
  ⟨167, "**URL**: `https://<rapido-host-url>/api/ota/event`"⟩,
  ⟨168, ""⟩,
  ⟨169, "### Authentication & Headers"⟩,
  ⟨170, ""⟩,
  ⟨171, "```http"⟩,
  ⟨172, "POST /api/ota/event HTTP/1.1"⟩,
  ⟨173, "Host: <rapido-host-url>"⟩,
  ⟨174, "Content-Type: application/json"⟩,
  ⟨175, "x-client-id: your-client-id"⟩,
  ⟨176, "x-client-service: flights/hotels"⟩,
  ⟨177, "x-client-app-id: your-app-id"⟩,
  ⟨178, "authorization: your-client-key"⟩,
  ⟨179, "```"⟩]

/-! ## `src/unnamed/part_000` (repository README) — "JavaScript Bridge API" (lines 134–153) -/

/-- Lines 134–153 of `src/unnamed/part_000`: the tables documenting the
host-bridge method and callback interface, including the
`window.JSBridge.onTokenReceived` callback. -/
def readme_bridgeAPI : List DocLine := [
  ⟨134, "## JavaScript Bridge API"⟩,
  ⟨135, ""⟩,
  ⟨136, "### Methods Available to PWA"⟩,
  ⟨137, ""⟩,
  ⟨138, "| Method | Purpose |"⟩,
  ⟨139, "|--------|---------|"⟩,
  ⟨140, "| `requestUserToken()` | Request authentication token from Rapido |"⟩,
  ⟨141, "| `updateLoginStatus(isSuccess, errorMessage)` | Notify native app of login result |"⟩,
  ⟨142, "| `storeSessionId(sessionId)` | Store session ID in secure storage |"⟩,
  ⟨143, "| `fetchSessionId()` | Retrieve stored session ID |"⟩,
  ⟨144, "| `clearUserToken()` | Clear token and session data |"⟩,
  ⟨145, ""⟩,
  ⟨146, "### Callbacks Required by PWA"⟩,
  ⟨147, ""⟩,
  ⟨148, "| Callback | Purpose |"⟩,
  ⟨149, "|----------|---------|"⟩,
  ⟨150, "| `window.JSBridge.onTokenReceived(token)` | Receive authentication token |"⟩,
  ⟨151, "| `window.JSBridge.onUserSkippedLogin()` | Handle user declining authentication |"⟩,
  ⟨152, "| `window.JSBridge.onTokenCleared()` | Handle successful logout |"⟩,
  ⟨153, "| `window.JSBridge.onError(error)` | Handle bridge errors |"⟩]

/-! ## `docusaurus.config.js` — the site configuration module

The module evaluates to a constant configuration object except for one
expression: the footer copyright is the template literal
`Copyright Â© $\x7bnew Date().getFullYear()\x7d Roppen Transportation Services
Private Limited` (line 144; the staged file literally contains the bytes
`Â©`), whose value depends on the clock of the machine evaluating it.  The
evaluation is therefore modelled as a function of the environment's current
year. -/

/-- The data `docusaurus.config.js` evaluates to (the fields the claims are
about: identity, link-checking behaviour and the footer copyright). -/
structure SiteConfig where
  title : String
  tagline : String
  url : String
  baseUrl : String
  organizationName : String
  projectName : String
  onBrokenLinks : String
  onBrokenMarkdownLinks : String
  defaultLocale : String
  copyright : String
deriving DecidableEq

/-- Evaluating `docusaurus.config.js` in an environment where
`new Date().getFullYear()` returns `currentYear`. -/
def renderConfig (currentYear : Nat) : SiteConfig :=
  { title := "Rapido OTA Integration Guide"
    tagline := "Rapido OTA Integration Guide"
    url := "https://docs.rapido.bike"
    baseUrl := "/ota-docs/"
    organizationName := "rapido-labs"
    projectName := "ota-docs"
    onBrokenLinks := "throw"
    onBrokenMarkdownLinks := "warn"
    defaultLocale := "en"
    copyright := "Copyright Â© " ++ toString currentYear ++
      " Roppen Transportation Services Private Limited" }

/-! ## `sidebars.js` (staged as `src/unnamed/part_007`) -/

/-- One entry of the sidebar: a document id, or a labelled category of
document ids with its collapsed flag. -/
inductive SidebarEntry
  | doc (id : String)
  | category (label : String) (items : List String) (collapsed : Bool)
deriving DecidableEq

/-- The `tutorialSidebar` value of `sidebars.js` (lines 19–69 of
`src/unnamed/part_007`), a constant. -/
def tutorialSidebar : List SidebarEntry := [
  .doc "intro",
  .doc "overview",
  .doc "quickstart",
  .category "Integration Guide"
    ["integration/basics", "integration/javascript-bridge", "integration/events-tracking"] false,
  .category "API Reference"
    ["api/overview", "api/token-validation", "api/examples"] false,
  .doc "security",
  .doc "faq",
  .doc "troubleshooting"]

/-! ## `HomepageFeatures` component (staged as `src/unnamed/part_008`) -/

/-- One entry of the component's `FeatureList` constant: a title, the SVG
asset it requires and its description text. -/
structure Feature where
  title : String
  svgAsset : String
  description : String
deriving DecidableEq

/-- The `FeatureList` constant of the `HomepageFeatures` component (lines
5–36 of `src/unnamed/part_008`). -/
def featureList : List Feature := [
  ⟨"Quick Integration", "@site/static/img/undraw_docusaurus_mountain.svg",
    "Get your PWA integrated with Rapido in under 30 minutes. Our step-by-step guide and code examples make integration fast and straightforward."⟩,
  ⟨"Secure by Design", "@site/static/img/undraw_docusaurus_tree.svg",
    "Enterprise-grade security with encrypted tokens, secure session management, and comprehensive authentication flows. User privacy and data protection built-in."⟩,
  ⟨"Production Ready", "@site/static/img/undraw_docusaurus_react.svg",
    "Complete API documentation, error handling examples, and best practices to ensure your integration is robust and ready for production deployment."⟩]

/-- What `HomepageFeatures` renders: one feature block per entry of
`FeatureList` (the `FeatureList.map` on lines 57–59 of
`src/unnamed/part_008`), a pure function of the constant list. -/
def renderedFeatureTitles : List String := featureList.map (·.title)

/-! ## JSON/code examples mentioning the Token, Session and User entities -/

/-- Lines 328–345 of `src/unnamed/part_001` (the API Reference page): the
`userSchema` and `sessionSchema` example database models, inside a fenced
`javascript` example block of the Markdown prose (`\x7b`/`\x7d` stand for
the brace characters). -/
def apiReference_sessionSchemaExample : List DocLine := [
  ⟨328, "// Database models (example with MongoDB/Mongoose)"⟩,
  ⟨329, "const userSchema = \x7b"⟩,
  ⟨330, "    rapidoUserId: String,"⟩,
  ⟨331, "    name: String,"⟩,
  ⟨332, "    email: String,"⟩,
  ⟨333, "    mobile: String,"⟩,
  ⟨334, "    profile: Object,"⟩,
  ⟨335, "    createdAt: \x7b type: Date, default: Date.now \x7d,"⟩,
  ⟨336, "    lastLoginAt: Date"⟩,
  ⟨337, "\x7d;"⟩,
  ⟨338, ""⟩,
  ⟨339, "const sessionSchema = \x7b"⟩,
  ⟨340, "    sessionId: String,"⟩,
  ⟨341, "    userId: String,"⟩,
  ⟨342, "    expiresAt: Date,"⟩,
  ⟨343, "    createdAt: \x7b type: Date, default: Date.now \x7d,"⟩,
  ⟨344, "    lastAccessedAt: Date"⟩,
  ⟨345, "\x7d;"⟩]

/-- Lines 101–112 of `src/unnamed/part_000` (the README): the success
response of the token-validation endpoint, a JSON example embedded in the
prose, carrying a `user` object. -/
def readme_successResponseExample : List DocLine := [
  ⟨101, "#### Success Response (HTTP 200)"⟩,
  ⟨102, "```json"⟩,
  ⟨103, "\x7b"⟩,
  ⟨104, "  \"success\": true,"⟩,
  ⟨105, "  \"code\": 7000,"⟩,
  ⟨106, "  \"data\": \x7b"⟩,
  ⟨107, "    \"valid\": true,"⟩,
  ⟨108, "    \"user\": \x7b"⟩,
  ⟨109, "      \"name\": \"John Doe\","⟩,
  ⟨110, "      \"mobile\": \"+91-9876543210\""⟩,
  ⟨111, "    \x7d"⟩,
  ⟨112, "  \x7d,"⟩]

/-! ## The repository's file inventory -/

/-- The format of a repository file, read off the staged sources. -/
inductive FileFormat
  /-- A Markdown page: prose, possibly with fenced JSON/HTTP/code examples. -/
  | markdownDoc
  /-- A JS module that evaluates to site-configuration data
  (`docusaurus.config.js`, `sidebars.js`). -/
  | jsConfigModule
  /-- A React presentation component of the site shell (theming): renders
  fixed content, no application logic (`HomepageFeatures`). -/
  | jsxComponent
  /-- Executable application logic.  No file of this repository has this
  format; the constructor exists so that the classification is falsifiable. -/
  | applicationCode
deriving DecidableEq

/-- One repository file with the facts the claims are about, each read off
the staged source:

* `format` — see `FileFormat`;
* `runsErrorHandling` — whether the file defines error-handling behaviour
  that this repository itself executes.  Markdown cannot execute; none of
  the three JS/JSX files contains a `try`/`catch` or any error branch
  (`docusaurus.config.js`, `sidebars.js` and `HomepageFeatures` evaluate
  to plain data and markup);
* `buildsEntityValues` — whether code in the file defines, constructs or
  manipulates a Token, Session or User value.  The three JS/JSX files build
  only configuration records, doc-id strings and feature markup; the
  substring `token` occurs in `sidebars.js` solely inside the page id
  `api/token-validation`. -/
structure RepoFile where
  path : String
  format : FileFormat
  runsErrorHandling : Bool
  buildsEntityValues : Bool
deriving DecidableEq

/-- All eighteen files of the staged repository.  The unnamed parts are,
by their content: `part_000` the README plus API-reference fragments,
`part_001` the API Reference page, `part_002` the Token Validation API page,
`part_003` the short Integration Flow page, `part_004` the introduction
page, `part_005` and `part_006` the troubleshooting page (two revisions),
`part_007` the sidebar definition `sidebars.js`, and `part_008` the
`HomepageFeatures` React component. -/
def repoFiles : List RepoFile := [
  ⟨"src/docs/overview.md", .markdownDoc, false, false⟩,
  ⟨"src/docs/faq.md", .markdownDoc, false, false⟩,
  ⟨"src/docs/integration-flow.md", .markdownDoc, false, false⟩,
  ⟨"src/docs/security.md", .markdownDoc, false, false⟩,
  ⟨"src/docs/api/overview.md", .markdownDoc, false, false⟩,
  ⟨"src/docs/integration/basics.md", .markdownDoc, false, false⟩,
  ⟨"src/docs/integration/events-tracking.md", .markdownDoc, false, false⟩,
  ⟨"src/docs/integration/javascript-bridge.md", .markdownDoc, false, false⟩,
  ⟨"src/docusaurus.config.js", .jsConfigModule, false, false⟩,
  ⟨"src/unnamed/part_000", .markdownDoc, false, false⟩,
  ⟨"src/unnamed/part_001", .markdownDoc, false, false⟩,
  ⟨"src/unnamed/part_002", .markdownDoc, false, false⟩,
  ⟨"src/unnamed/part_003", .markdownDoc, false, false⟩,
  ⟨"src/unnamed/part_004", .markdownDoc, false, false⟩,
  ⟨"src/unnamed/part_005", .markdownDoc, false, false⟩,
  ⟨"src/unnamed/part_006", .markdownDoc, false, false⟩,
  ⟨"src/unnamed/part_007", .jsConfigModule, false, false⟩,
  ⟨"src/unnamed/part_008", .jsxComponent, false, false⟩]

/-- The three kinds of file the spec allows: Markdown prose, JSON/HTTP
examples embedded in prose, and site-configuration glue (navigation,
sidebar, theming). -/
inductive SpecCategory
  | markdownProse
  | examplesInProse
  | siteConfigGlue
deriving DecidableEq

/-- The spec category a file format falls into, if any.  Markdown pages are
prose (their JSON/HTTP examples live inside that prose, in fenced blocks);
the two JS configuration modules and the site-shell theming component are
site-configuration glue; application code would fall outside the spec's
three kinds. -/
def specCategoryOf : FileFormat → Option SpecCategory
  | .markdownDoc => some .markdownProse
  | .jsConfigModule => some .siteConfigGlue
  | .jsxComponent => some .siteConfigGlue
  | .applicationCode => none

/-! ## `docs/api/overview.md` — "Common Error Codes" table (lines 90–99) -/

/-- One row of the "Common Error Codes" table: error code, HTTP status,
description. -/
structure ErrorCodeRow where
  code : String
  httpStatus : Nat
  description : String
deriving DecidableEq

/-- The "Common Error Codes" table of `docs/api/overview.md` (lines 92–99),
row by row. -/
def commonErrorCodes : List ErrorCodeRow := [
  ⟨"INVALID_TOKEN", 401, "Token is expired, malformed, or invalid"⟩,
  ⟨"UNAUTHORIZED", 401, "Invalid or missing API key"⟩,
  ⟨"RATE_LIMITED", 429, "Rate limit exceeded"⟩,
  ⟨"INVALID_REQUEST", 400, "Malformed request or missing parameters"⟩,
  ⟨"INVALID_EVENT_DATA", 400, "Event data format is invalid or missing required fields"⟩,
  ⟨"USER_NOT_FOUND", 404, "User associated with token not found"⟩,
  ⟨"DUPLICATE_EVENT", 409, "Event with same ID already exists"⟩,
  ⟨"SERVICE_UNAVAILABLE", 503, "Temporary service disruption"⟩]

/-- The HTTP status the error-code table assigns to a code, if the code has
a row. -/
def errorStatusFor (code : String) : Option Nat :=
  (commonErrorCodes.find? fun r => r.code == code).map (·.httpStatus)

/-- Line 610 of `docs/api/overview.md`, the retry guidance in the
"Performance" best-practice list. -/
def apiOverview_retryGuidance : DocLine :=
  ⟨610, "4. **Implement retries** - Retry failed requests with exponential backoff"⟩

/-! ## Cross-file references -/

/-- A verbatim line of a named repository file. -/
structure SourceRef where
  path : String
  line : DocLine
deriving DecidableEq

/-! ## The `storeSessionId` return contract (claim C9) -/

/-- Every place where the documentation states the return value of the
`storeSessionId` bridge method, verbatim. -/
def storeSessionId_contractStatements : List SourceRef := [
  ⟨"src/docs/integration/javascript-bridge.md",
    ⟨146, "- `string`: \"SUCCESS\" on success, \"ERROR:message\" on failure"⟩⟩,
  ⟨"src/docs/integration-flow.md",
    ⟨132, "   - Returns: `'SUCCESS'` or error"⟩⟩,
  ⟨"src/docs/overview.md",
    ⟨456, "**Solution**: Check that `storeSessionId` returns \"SUCCESS\" and handle error cases."⟩⟩]

/-- Every code example in the documentation that branches on the result of a
`storeSessionId` call, verbatim (the line holding the branch condition;
`\x7b` stands for the brace character). -/
def storeSessionId_branchSites : List SourceRef := [
  ⟨"src/docs/integration/javascript-bridge.md",
    ⟨154, "            if (result === 'SUCCESS') \x7b"⟩⟩,
  ⟨"src/docs/overview.md",
    ⟨181, "                        if (result === 'SUCCESS') \x7b"⟩⟩,
  ⟨"src/docs/integration/basics.md",
    ⟨422, "            if (result === 'SUCCESS') \x7b"⟩⟩,
  ⟨"src/docs/api/overview.md",
    ⟨646, "                if (storeResult === 'SUCCESS') \x7b"⟩⟩,
  ⟨"src/unnamed/part_001",
    ⟨1251, "            if (result === 'SUCCESS') \x7b"⟩⟩]

/-! ## Where the Session ID is persisted (claim C5) -/

/-- One statement in the documentation about where a session ID is stored:
the verbatim line and whether the statement is normative (describes the real
integration) or part of a development mock (the FAQ and bridge pages ship a
`Mock` bridge, explicitly labelled as simulating the host app in a desktop
browser, which backs the simulated secure storage with
`localStorage.setItem('mockRapidoSession', ...)`). -/
structure StorageStatement where
  ref : SourceRef
  normative : Bool
deriving DecidableEq

/-- Every statement in the documentation saying where the Session ID is
persisted, verbatim, normative statements and development-mock lines both. -/
def sessionStorageStatements : List StorageStatement := [
  ⟨⟨"src/docs/integration-flow.md",
    ⟨146, "- **Encrypted Storage**: Session IDs stored in Rapido's secure keystore, not browser storage"⟩⟩, true⟩,
  ⟨⟨"src/docs/security.md",
    ⟨26, "- **Secure Session Storage**: Session IDs stored in Rapido's encrypted storage, not browser storage"⟩⟩, true⟩,
  ⟨⟨"src/docs/overview.md",
    ⟨101, "2. Calls `storeSessionId` to save in Rapido's secure storage (App)"⟩⟩, true⟩,
  ⟨⟨"src/docs/api/overview.md",
    ⟨770, "3. **Security**: Never store sessions in browser storage - use Rapido's secure storage only"⟩⟩, true⟩,
  ⟨⟨"src/docs/api/overview.md",
    ⟨1042, "1. **Return Session ID**: Your authentication endpoint should return a `sessionId` that will be stored in Rapido's secure storage"⟩⟩, true⟩,
  ⟨⟨"src/docs/integration/basics.md",
    ⟨391, "After successful authentication, store the session ID using Rapido's secure storage."⟩⟩, true⟩,
  ⟨⟨"src/docs/integration/javascript-bridge.md",
    ⟨140, "Securely stores a session ID in Rapido's encrypted storage."⟩⟩, true⟩,
  ⟨⟨"src/unnamed/part_000",
    ⟨142, "| `storeSessionId(sessionId)` | Store session ID in secure storage |"⟩⟩, true⟩,
  ⟨⟨"src/unnamed/part_001",
    ⟨133, "| `storeSessionId(sessionId)` | Store session ID in secure storage |"⟩⟩, true⟩,
  ⟨⟨"src/docs/faq.md",
    ⟨205, "                localStorage.setItem('mockRapidoSession', sessionId);"⟩⟩, false⟩,
  ⟨⟨"src/docs/faq.md",
    ⟨484, "                localStorage.setItem('mockRapidoSession', sessionId);"⟩⟩, false⟩,
  ⟨⟨"src/docs/integration/javascript-bridge.md",
    ⟨698, "                    localStorage.setItem('mockRapidoSession', sessionId);"⟩⟩, false⟩]

/-- Does the statement name the host app's secure/encrypted storage as the
storage location? -/
def saysSecureStorage (s : String) : Bool :=
  containsStr s "secure storage" || containsStr s "encrypted storage" ||
    containsStr s "secure keystore"

/-- Does the statement put data into browser storage? -/
def putsInBrowserStorage (s : String) : Bool :=
  containsStr s "localStorage.setItem" || containsStr s "sessionStorage.setItem"

/-- Line 1038 of `docs/api/overview.md`: session management starts only
after successful token validation. -/
def apiOverview_sessionAfterValidation : DocLine :=
  ⟨1038, "After successful token validation, you'll need to implement session management for seamless user experience:"⟩

/-- Line 96 of `docs/overview.md` (Phase 3 "Backend Validation", step 5):
the partner backend issues the `sessionId`, as the last step of the
validation phase. -/
def overview_sessionIssuance : DocLine :=
  ⟨96, "5. Backend generates and returns `sessionId` to PWA"⟩

/-! ## The server-to-server events endpoint path (claim C8) -/

/-- Line 45 of `docs/api/overview.md`: the Events API endpoint declaration. -/
def apiOverview_eventsEndpointLine : DocLine :=
  ⟨45, "**Endpoint**: `POST /event`"⟩

/-- Line 26 of `src/unnamed/part_001` (the API Reference page, section
"Post Business Events"): its events endpoint declaration. -/
def apiReference_eventsEndpointLine : DocLine :=
  ⟨26, "**Endpoint**: `POST /postEvent`"⟩

/-- Line 167 of `docs/integration/events-tracking.md`: the events API URL. -/
def eventsTracking_eventsURLLine : DocLine :=
  ⟨167, "**URL**: `https://<rapido-host-url>/api/ota/event`"⟩

/-- The characters after the first occurrence of `c`. -/
def dropUntilChar (c : Char) : List Char → List Char
  | [] => []
  | d :: ds => if d == c then ds else dropUntilChar c ds

/-- The characters before the first occurrence of `c`. -/
def takeUntilChar (c : Char) : List Char → List Char
  | [] => []
  | d :: ds => if d == c then [] else d :: takeUntilChar c ds

/-- The backtick character (the Markdown inline-code delimiter). -/
def codeTick : Char := "`".toList.headD ' '

/-- The inline code span of a Markdown line: the text between its first pair
of backticks. -/
def codeSpan (s : String) : String :=
  String.mk (takeUntilChar codeTick (dropUntilChar codeTick s.toList))

/-- The characters after the first occurrence of the marker. -/
def afterMarker (marker : List Char) : List Char → List Char
  | [] => []
  | d :: ds =>
    if charsStart marker (d :: ds) then (d :: ds).drop marker.length
    else afterMarker marker ds

/-- The path declared by an endpoint line of the form
"**Endpoint**: `POST <path>`". -/
def endpointPath (l : DocLine) : String :=
  String.mk (afterMarker "POST ".toList (codeSpan l.text).toList)

/-- The final segment of a URL or path: the characters after its last
slash. -/
def lastSegment (s : String) : String :=
  String.mk (s.toList.foldl (fun acc c => if c == '/' then [] else acc ++ [c]) [])

/-! ## Integration-flow descriptions (claim C4)

Each flow description in the documentation is modelled as the list, in
document order, of the protocol steps it presents.  A step is classified as
one of the four phases named by the claim when it is that phase's action;
every other presented step (launching the PWA, checking stored sessions,
token creation and delivery, storing the issued session, session-ID
validation on relaunch, cleanup, status updates) is `other`. -/

/-- A step of a documented integration flow. -/
inductive FlowStep
  /-- Requesting an authentication token (trigger of the auth flow,
  `requestUserToken`, fetching the token). -/
  | tokenRequest
  /-- Showing the consent screen / the user approving data sharing. -/
  | consent
  /-- Validating the token with the validation API / returning user details
  for it. -/
  | validation
  /-- The partner backend issuing and returning the session
  (auth success with `sessionId`). -/
  | sessionIssuance
  /-- Any other presented step. -/
  | other
deriving DecidableEq

/-- The canonical position of a phase in the claimed order
token request → consent → validation → session issuance. -/
def stepRank : FlowStep → Nat
  | .tokenRequest => 0
  | .consent => 1
  | .validation => 2
  | .sessionIssuance => 3
  | .other => 0

/-- The steps of a flow that belong to one of the four claimed phases, in
document order. -/
def keySteps (l : List FlowStep) : List FlowStep :=
  l.filter fun s => s != FlowStep.other

/-- Is the list of ranks non-decreasing? -/
def ranksOrdered : List Nat → Bool
  | [] => true
  | [_] => true
  | a :: b :: rest => decide (a ≤ b) && ranksOrdered (b :: rest)

/-- A flow description: the page, the section, and the steps it presents in
document order. -/
structure FlowDesc where
  page : String
  section_name : String
  steps : List FlowStep

/-- Does the flow present its phases in the claimed order (its steps from
the four claimed phases appear with non-decreasing rank)? -/
def flowOrdered (f : FlowDesc) : Bool :=
  ranksOrdered ((keySteps f.steps).map stepRank)

/-- Is `needle` a (not necessarily contiguous) subsequence of `hay`? -/
def isSubseq : List FlowStep → List FlowStep → Bool
  | [], _ => true
  | _ :: _, [] => false
  | a :: as, b :: bs => if a = b then isSubseq as bs else isSubseq (a :: as) bs

/-- `docs/overview.md` lines 29–35, "Flow Steps" (a)–(g): (a) trigger login
and request token, (b) get token from Rapido Server, (c) token created,
(d) PWA responds with token, (e) PWA authenticates with partner server,
(f) partner server validates the token against Rapido Server, (g) Rapido
Server provides the user details. -/
def overview_flowSteps : FlowDesc :=
  ⟨"src/docs/overview.md", "Flow Steps",
   [.tokenRequest, .tokenRequest, .other, .other, .other, .validation, .validation]⟩

/-- `docs/overview.md` lines 77–103, "Integration Flow Phases": Phase 1
(launch, detect missing session, trigger auth = token request), Phase 2
(display consent screen, user approves, token generated, token delivered),
Phase 3 (send token to backend, backend calls validation API, Rapido returns
user details, login logic, backend issues `sessionId`), Phase 4 (receive,
store, retrieve, re-authenticate). -/
def overview_integrationPhases : FlowDesc :=
  ⟨"src/docs/overview.md", "Integration Flow Phases",
   [.other, .other, .tokenRequest,
    .consent, .consent, .other, .other,
    .other, .validation, .validation, .other, .sessionIssuance,
    .other, .other, .other, .other]⟩

/-- `docs/integration-flow.md` lines 11–17, "Flow Explanation" (a)–(g):
(a) launch triggering login, (b) fetch token, (c) token created and stored,
(d) token passed to the PWA, (e) PWA logs in with it, (f) partner server
fetches user details with the token (validation), (g) Rapido Server responds
with the details. -/
def integrationFlow_explanation : FlowDesc :=
  ⟨"src/docs/integration-flow.md", "Flow Explanation",
   [.other, .tokenRequest, .other, .other, .other, .validation, .validation]⟩

/-- `docs/integration-flow.md` lines 23–61, "Phase 1: Initial Authentication
Flow" diagram steps 1–13: launch, check stored session, none found, request
auth token, fetch token, token created, pass token, validate token, API
validation, user details, auth success (the partner server's response after
validation, carrying the session stored in the next step), store session ID,
update login status. -/
def integrationFlow_initialAuth : FlowDesc :=
  ⟨"src/docs/integration-flow.md", "Phase 1: Initial Authentication Flow",
   [.other, .other, .other, .tokenRequest, .tokenRequest, .other, .other,
    .validation, .validation, .validation, .sessionIssuance, .other, .other]⟩

/-- `docs/integration-flow.md` lines 63–86, "Phase 2: Subsequent App Launch"
diagram steps 1–6: launch, check stored session, return stored session,
validate session (a session check, not token validation), session valid,
direct to dashboard. -/
def integrationFlow_subsequentLaunch : FlowDesc :=
  ⟨"src/docs/integration-flow.md", "Phase 2: Subsequent App Launch",
   [.other, .other, .other, .other, .other, .other]⟩

/-- `docs/integration-flow.md` lines 88–119, "Phase 3: Session Expiration
Handling" diagram steps 1–7: launch, check stored session, return it,
validate session, session invalid/expired, clear stored session, restart the
auth flow (`requestUserToken` — a token request, after which Phase 1
continues). -/
def integrationFlow_sessionExpiration : FlowDesc :=
  ⟨"src/docs/integration-flow.md", "Phase 3: Session Expiration Handling",
   [.other, .other, .other, .other, .other, .other, .tokenRequest]⟩

/-- `docs/integration/basics.md` lines 13–17, "Integration Flow Overview"
phases 1–5: PWA launch, token request, user consent, backend validation,
session management (the session returned by the validated backend call,
stored and managed by the PWA). -/
def basics_flowOverview : FlowDesc :=
  ⟨"src/docs/integration/basics.md", "Integration Flow Overview",
   [.other, .tokenRequest, .consent, .validation, .sessionIssuance]⟩

/-- `src/unnamed/part_003` lines 12–18, "Flow Explanation" (a)–(g): the same
seven steps as `docs/integration-flow.md` lines 11–17. -/
def intro_flowExplanation : FlowDesc :=
  ⟨"src/unnamed/part_003", "Flow Explanation",
   [.other, .tokenRequest, .other, .other, .other, .validation, .validation]⟩

/-- Every end-to-end integration-flow description of the documentation. -/
def flowDescriptions : List FlowDesc := [
  overview_flowSteps,
  overview_integrationPhases,
  integrationFlow_explanation,
  integrationFlow_initialAuth,
  integrationFlow_subsequentLaunch,
  integrationFlow_sessionExpiration,
  basics_flowOverview,
  intro_flowExplanation]

end OtaDocs

namespace OtaDocs

/-- Claim C1: the documentation content under `src/` covers the HTTP API
surface and the host-bridge callback API: `docs/api/overview.md` documents
the endpoint `POST /fetch-user-details` and the endpoint `POST /event`,
`docs/integration/events-tracking.md` documents the `/api/ota/event`
endpoint with its header conventions, and the README (`src/unnamed/part_000`)
documents the `window.JSBridge` callbacks, among them `onTokenReceived`. -/
theorem C1_api_surface_documented :
    anyLineHas apiOverview_availableAPIs "POST /fetch-user-details" = true ∧
    anyLineHas apiOverview_availableAPIs "POST /event" = true ∧
    anyLineHas eventsTracking_apiEndpoint "POST /api/ota/event" = true ∧
    anyLineHas eventsTracking_apiEndpoint "x-client-id" = true ∧
    anyLineHas readme_bridgeAPI "window.JSBridge.onTokenReceived" = true ∧
    anyLineHas readme_bridgeAPI "window.JSBridge.onError" = true := by
  decide

/-- Claim C3, counterexample: the claim that no expression in any source file
computes a value depending on the runtime environment is false for
`docusaurus.config.js`: the footer copyright interpolates
`new Date().getFullYear()` (line 144), so evaluating the module in an
environment whose current year is 2025 yields a different configuration than
in one whose current year is 2026. -/
theorem C3_counterexample_env_dependent_copyright :
    renderConfig 2025 ≠ renderConfig 2026 := by
  decide

/-- Claim C3 (amended): the repository's components perform no computation
beyond evaluating constant site-configuration data, with one exception — the
footer copyright in `docusaurus.config.js` interpolates the environment's
current year.  Every configuration field other than `copyright` is
independent of the environment, the copyright is exactly the year-stamped
template string, the homepage component only maps over its constant
`FeatureList`, and the environment dependence of the copyright is real. -/
theorem C3_computation_isolated_to_copyright :
    (∀ y1 y2 : Nat, renderConfig y1 =
      { renderConfig y2 with copyright := (renderConfig y1).copyright }) ∧
    (∀ y : Nat, (renderConfig y).copyright =
      "Copyright Â© " ++ toString y ++ " Roppen Transportation Services Private Limited") ∧
    renderedFeatureTitles = ["Quick Integration", "Secure by Design", "Production Ready"] ∧
    renderConfig 2025 ≠ renderConfig 2026 := by
  exact ⟨fun y1 y2 => rfl, fun y => rfl, by decide, by decide⟩

/-- Claim C10: the site configuration sets `onBrokenLinks` to `throw` (a
broken page link fails the build) and `onBrokenMarkdownLinks` to `warn` (a
broken Markdown link only warns), whatever the build environment's current
year is. -/
theorem C10_broken_links_config :
    ∀ currentYear : Nat,
      (renderConfig currentYear).onBrokenLinks = "throw" ∧
      (renderConfig currentYear).onBrokenMarkdownLinks = "warn" :=
  fun _ => ⟨rfl, rfl⟩

/-- Claim C2: every one of the repository's eighteen files falls into one of
the spec's three kinds — Markdown prose (with its embedded JSON/HTTP
examples) or site-configuration glue (the configuration and sidebar modules
and the site-shell theming component); no file is application code. -/
theorem C2_every_file_in_spec_kinds :
    repoFiles.length = 18 ∧
    repoFiles.all (fun f => (specCategoryOf f.format).isSome) = true := by
  decide

/-- Claim C4: every integration-flow description presents the four claimed
phases in the order token request, consent, validation, session issuance —
the steps of each flow drawn from these phases appear with non-decreasing
rank, so no flow places consent after validation or session issuance before
validation — and the two flow descriptions that present all four phases
(`docs/overview.md` "Integration Flow Phases" and
`docs/integration/basics.md` "Integration Flow Overview") present them in
exactly that order. -/
theorem C4_flow_phase_order :
    flowDescriptions.all flowOrdered = true ∧
    isSubseq [.tokenRequest, .consent, .validation, .sessionIssuance]
      overview_integrationPhases.steps = true ∧
    isSubseq [.tokenRequest, .consent, .validation, .sessionIssuance]
      basics_flowOverview.steps = true := by
  decide

/-- Claim C5: the documentation presents the Session ID as issued by the
partner backend only after successful token validation (session management
begins "After successful token validation", and the backend returns the
`sessionId` as the last step of the validation phase), and every normative
statement of where the Session ID is persisted names the host app's
secure/encrypted storage and never puts it in browser storage (the only
`localStorage` writes of a session ID in the docs are the explicitly
labelled development mocks, marked non-normative in the embedding). -/
theorem C5_session_id_secure_storage :
    (sessionStorageStatements.filter (·.normative)).all
      (fun st => saysSecureStorage st.ref.line.text) = true ∧
    (sessionStorageStatements.filter (·.normative)).all
      (fun st => !putsInBrowserStorage st.ref.line.text) = true ∧
    containsStr apiOverview_sessionAfterValidation.text
      "After successful token validation" = true ∧
    containsStr overview_sessionIssuance.text
      "Backend generates and returns `sessionId`" = true := by
  decide

/-- Claim C6: the documentation's error-code table maps `INVALID_TOKEN` and
`UNAUTHORIZED` to HTTP 401, `RATE_LIMITED` to 429 and `DUPLICATE_EVENT` to
409, its best-practice list says to retry failed requests with exponential
backoff, and no repository file defines error-handling behaviour that the
repository itself executes. -/
theorem C6_error_codes_enumerated_not_executed :
    errorStatusFor "INVALID_TOKEN" = some 401 ∧
    errorStatusFor "UNAUTHORIZED" = some 401 ∧
    errorStatusFor "RATE_LIMITED" = some 429 ∧
    errorStatusFor "DUPLICATE_EVENT" = some 409 ∧
    containsStr apiOverview_retryGuidance.text
      "Retry failed requests with exponential backoff" = true ∧
    repoFiles.all (fun f => !f.runsErrorHandling) = true := by
  decide

/-- Claim C7: no code in the repository defines, constructs or manipulates a
Token, Session or User value (no file of the inventory builds entity
values), while the entities do occur as examples inside Markdown prose: the
API Reference page — a Markdown file — carries the `sessionSchema` and
`userSchema` example models, and the README — a Markdown file — carries a
JSON response example with a `user` object. -/
theorem C7_entities_only_in_prose :
    repoFiles.all (fun f => !f.buildsEntityValues) = true ∧
    (repoFiles.find? fun f => f.path == "src/unnamed/part_001").map (·.format) =
      some FileFormat.markdownDoc ∧
    anyLineHas apiReference_sessionSchemaExample "const sessionSchema" = true ∧
    (repoFiles.find? fun f => f.path == "src/unnamed/part_000").map (·.format) =
      some FileFormat.markdownDoc ∧
    anyLineHas readme_successResponseExample "\"user\"" = true := by
  decide

/-- Claim C8, evaluation at the failing input: the API overview declares the
events endpoint `POST /event` and the events-tracking guide the URL path
`/api/ota/event` (final segment `event` in both), but the API Reference page
(`src/unnamed/part_001`, "Post Business Events") declares `POST /postEvent`,
whose path differs from the other two pages' path. -/
theorem C8_events_endpoint_paths_disagree :
    endpointPath apiOverview_eventsEndpointLine = "/event" ∧
    lastSegment (codeSpan eventsTracking_eventsURLLine.text) = "event" ∧
    endpointPath apiReference_eventsEndpointLine = "/postEvent" ∧
    lastSegment (endpointPath apiReference_eventsEndpointLine) ≠
      lastSegment (endpointPath apiOverview_eventsEndpointLine) := by
  decide

/-- Claim C9: every statement of the `storeSessionId` return contract names
the string SUCCESS as the success value, the full contract — SUCCESS on
success, an ERROR:message string on failure — is stated, and every code
example that branches on the result compares it to the string literal
SUCCESS. -/
theorem C9_storeSessionId_contract_consistent :
    storeSessionId_contractStatements.all
      (fun r => containsStr r.line.text "SUCCESS") = true ∧
    storeSessionId_contractStatements.any
      (fun r => containsStr r.line.text "\"ERROR:message\" on failure") = true ∧
    storeSessionId_branchSites.all
      (fun r => containsStr r.line.text "=== 'SUCCESS'") = true := by
  decide

end OtaDocs
